import Mathlib

/-!
Shallow embedding of `src/scripts/stock-analysis/database.py` (class
`DatabaseManager`): the methods `upsert_stock_data` (lines 14-84) and
`write_analysis_to_database` (lines 170-207), together with a model of the
issued database operations and of the resulting table contents.

Modelling conventions:
* Python values (the loosely structured `stock_data` record, the pandas rows
  iterated by the batch driver, and the row dictionaries sent to the client)
  are an inductive `PyVal`.  Python floats are modelled as rationals; the code
  only coerces and stores them, it performs no float arithmetic.
* Python exceptions are the inductive `PyExc`.  A computation that can raise
  returns `Except PyExc`.
* Each `.execute()` call on the Supabase client is one `DbOp`.  The external
  service's behaviour is a function `beh : Nat -> Option PyExc` giving, for
  the i-th operation executed by a call, either success (`Option.none`) or
  the exception it raises.  Executed operations are recorded together with
  their success flag; `applyOps` replays the successful ones on a `Store`
  holding the three tables.
* `float(x)` / `int(x)` on numeric strings is not modelled (it is never
  exercised by the inputs the properties are about): a string argument is
  mapped to an error, as are arguments of non-numeric type.
-/

/-- Python runtime values, as far as this module manipulates them. -/
inductive PyVal where
  | none
  | bool (b : Bool)
  | int (n : Int)
  | float (q : ℚ)
  | str (s : String)
  | list (xs : List PyVal)
  | dict (fs : List (String × PyVal))

/-- Python exceptions distinguished by the embedded code paths. -/
inductive PyExc where
  | keyError (k : String)
  | typeError
  | valueError
  | attributeError
  | indexError
  | dbError (i : Nat)
deriving DecidableEq

/-- A table row as sent to the client: an association list of column values. -/
abbrev Row := List (String × PyVal)

/-- First-match lookup in a Python dict's field list. -/
def lookupField : List (String × PyVal) → String → Option PyVal
  | [], _ => Option.none
  | (k, v) :: rest, key => if k = key then some v else lookupField rest key

/-- Python subscript `v[k]` for a string key: dict lookup, `KeyError` when the
key is absent, `TypeError` on a non-dict. -/
def pySub (v : PyVal) (k : String) : Except PyExc PyVal :=
  match v with
  | PyVal.dict fs =>
    match lookupField fs k with
    | some w => Except.ok w
    | Option.none => Except.error (PyExc.keyError k)
  | _ => Except.error PyExc.typeError

/-- Python `v.get(k, d)`: total on dicts, `AttributeError` on a value with no
`get` method. -/
def pyGet (v : PyVal) (k : String) (d : PyVal) : Except PyExc PyVal :=
  match v with
  | PyVal.dict fs => Except.ok ((lookupField fs k).getD d)
  | _ => Except.error PyExc.attributeError

/-- Python list indexing `l[i]` with a non-negative index. -/
def pyIndex (v : PyVal) (i : Nat) : Except PyExc PyVal :=
  match v with
  | PyVal.list xs =>
    match xs.get? i with
    | some w => Except.ok w
    | Option.none => Except.error PyExc.indexError
  | _ => Except.error PyExc.typeError

/-- Python `float(x)` on the values this module feeds it (numbers and bools);
string parsing is not modelled. -/
def pyFloat (v : PyVal) : Except PyExc PyVal :=
  match v with
  | PyVal.int n => Except.ok (PyVal.float ((n : Int) : ℚ))
  | PyVal.float q => Except.ok (PyVal.float q)
  | PyVal.bool b => Except.ok (PyVal.float (if b then 1 else 0))
  | PyVal.str _ => Except.error PyExc.valueError
  | _ => Except.error PyExc.typeError

/-- Python `int(x)` on the values this module feeds it; truncation toward
zero on floats, string parsing not modelled. -/
def pyInt (v : PyVal) : Except PyExc PyVal :=
  match v with
  | PyVal.int n => Except.ok (PyVal.int n)
  | PyVal.float q => Except.ok (PyVal.int (q.num / (q.den : Int)))
  | PyVal.bool b => Except.ok (PyVal.int (if b then 1 else 0))
  | PyVal.str _ => Except.error PyExc.valueError
  | _ => Except.error PyExc.typeError

/-- Python truthiness of a value. -/
def PyVal.truthy : PyVal → Bool
  | PyVal.none => false
  | PyVal.bool b => b
  | PyVal.int n => decide (n ≠ 0)
  | PyVal.float q => decide (q ≠ 0)
  | PyVal.str s => decide (s ≠ "")
  | PyVal.list xs => !xs.isEmpty
  | PyVal.dict fs => !fs.isEmpty

/-- View a value as a Python iterable list; iteration over non-list
iterables is not modelled. -/
def asList (v : PyVal) : Except PyExc (List PyVal) :=
  match v with
  | PyVal.list xs => Except.ok xs
  | _ => Except.error PyExc.typeError

/-- Equality test used by the client's `.eq(column, value)` filter.  The code
only ever filters on scalar key values (a ticker string, the `id` value);
structured-value comparison is not modelled. -/
def PyVal.scalarEq : PyVal → PyVal → Bool
  | PyVal.none, PyVal.none => true
  | PyVal.bool a, PyVal.bool b => a == b
  | PyVal.int a, PyVal.int b => a == b
  | PyVal.float a, PyVal.float b => decide (a = b)
  | PyVal.str a, PyVal.str b => a == b
  | _, _ => false

/-- One `.execute()`d client request: `delete` with an `.eq(col, value)`
filter, or `insert` of a list of rows (a single-row insert is a one-element
list). -/
inductive DbOp where
  | delete (table : String) (col : String) (value : PyVal)
  | insert (table : String) (rows : List Row)

/-- Contents of the three tables the module writes to. -/
structure Store where
  stocks : List Row
  stock_prices : List Row
  stock_predictions : List Row

/-- Does row `r` match the filter `.eq(col, v)`? -/
def rowMatches (col : String) (v : PyVal) (r : Row) : Bool :=
  match lookupField r col with
  | some w => PyVal.scalarEq w v
  | Option.none => false

/-- Effect of one successful operation on the store. -/
def applyOp (st : Store) : DbOp → Store
  | DbOp.delete t c v =>
    if t = "stocks" then
      { st with stocks := st.stocks.filter (fun r => !rowMatches c v r) }
    else if t = "stock_prices" then
      { st with stock_prices := st.stock_prices.filter (fun r => !rowMatches c v r) }
    else if t = "stock_predictions" then
      { st with stock_predictions := st.stock_predictions.filter (fun r => !rowMatches c v r) }
    else st
  | DbOp.insert t rows =>
    if t = "stocks" then { st with stocks := st.stocks ++ rows }
    else if t = "stock_prices" then { st with stock_prices := st.stock_prices ++ rows }
    else if t = "stock_predictions" then
      { st with stock_predictions := st.stock_predictions ++ rows }
    else st

/-- Replay a list of successful operations on a store. -/
def applyOps (st : Store) (ops : List DbOp) : Store := ops.foldl applyOp st

/-- Issue one operation: record it with its outcome; the service's answer to
the i-th operation of the call is `beh i`. -/
def execOp (beh : Nat → Option PyExc) (acc : List (DbOp × Bool)) (op : DbOp) :
    List (DbOp × Bool) × Option PyExc :=
  match beh acc.length with
  | Option.none => (acc ++ [(op, true)], Option.none)
  | some e => (acc ++ [(op, false)], some e)

/-- Lines 18-30: build the `stock` row dictionary from `stock_data`,
evaluating the dict literal's entries in source order.  `ticker` and `name`
are read with subscripts (mandatory, no default); the remaining fields with
`.get` and a default. `now` stands for `datetime.now().isoformat()`. -/
def mapStockRow (now : String) (stock_data : PyVal) : Except PyExc Row :=
  match pySub stock_data "ticker" with
  | Except.error e => Except.error e
  | Except.ok tickerV =>
  match pySub stock_data "name" with
  | Except.error e => Except.error e
  | Except.ok nameV =>
  match pyGet stock_data "sentiment_score" (PyVal.int 0) with
  | Except.error e => Except.error e
  | Except.ok ssRaw =>
  match pyFloat ssRaw with
  | Except.error e => Except.error e
  | Except.ok ss =>
  match pyGet stock_data "sentiment_category" (PyVal.str "Neutral") with
  | Except.error e => Except.error e
  | Except.ok scat =>
  match pyGet stock_data "investment_score" (PyVal.int 0) with
  | Except.error e => Except.error e
  | Except.ok isRaw =>
  match pyFloat isRaw with
  | Except.error e => Except.error e
  | Except.ok sentInv =>
  match pyGet stock_data "news_count" (PyVal.int 0) with
  | Except.error e => Except.error e
  | Except.ok ncRaw =>
  match pyInt ncRaw with
  | Except.error e => Except.error e
  | Except.ok nc =>
  match pyGet stock_data "rank" (PyVal.int 0) with
  | Except.error e => Except.error e
  | Except.ok rkRaw =>
  match pyInt rkRaw with
  | Except.error e => Except.error e
  | Except.ok rk =>
  match pyGet stock_data "investment_score" (PyVal.int 0) with
  | Except.error e => Except.error e
  | Except.ok is2Raw =>
  match pyFloat is2Raw with
  | Except.error e => Except.error e
  | Except.ok inv2 =>
  Except.ok [("ticker", tickerV), ("name", nameV),
    ("sentiment", PyVal.dict [("score", ss), ("category", scat),
                              ("investment_score", sentInv)]),
    ("news_count", nc), ("rank", rk), ("investment_score", inv2),
    ("last_updated", PyVal.str now)]

/-- Lines 42-46: one element of the historical-rows comprehension.  The
`'ticker': stock_data['ticker']` entry is constant across iterations and is
passed in as `tickerV`. -/
def mapHistRow (tickerV : PyVal) (price : PyVal) : Except PyExc Row :=
  match pySub price "date" with
  | Except.error e => Except.error e
  | Except.ok dateV =>
  match pySub price "price" with
  | Except.error e => Except.error e
  | Except.ok pRaw =>
  match pyFloat pRaw with
  | Except.error e => Except.error e
  | Except.ok pF => Except.ok [("ticker", tickerV), ("date", dateV), ("price", pF)]

/-- Lines 41-48: the full comprehension over `stock_data['historical_data']`. -/
def mapHistList (tickerV : PyVal) : List PyVal → Except PyExc (List Row)
  | [] => Except.ok []
  | p :: ps =>
    match mapHistRow tickerV p with
    | Except.error e => Except.error e
    | Except.ok r =>
      match mapHistList tickerV ps with
      | Except.error e => Except.error e
      | Except.ok rs => Except.ok (r :: rs)

/-- Lines 39-55: the historical-prices block.  The whole block — delete
included — is guarded by the truthiness of `stock_data.get('historical_data')`;
the insert is additionally guarded by `if historical_data:`. -/
def pricesBlock (beh : Nat → Option PyExc) (stock_data : PyVal)
    (acc : List (DbOp × Bool)) : Option PyExc × List (DbOp × Bool) :=
  match pyGet stock_data "historical_data" PyVal.none with
  | Except.error e => (some e, acc)
  | Except.ok histV =>
  if histV.truthy then
    match pySub stock_data "historical_data" with
    | Except.error e => (some e, acc)
    | Except.ok hist2 =>
    match asList hist2 with
    | Except.error e => (some e, acc)
    | Except.ok items =>
    match pySub stock_data "ticker" with
    | Except.error e => (some e, acc)
    | Except.ok tickerV =>
    match mapHistList tickerV items with
    | Except.error e => (some e, acc)
    | Except.ok rows =>
    match pySub stock_data "ticker" with
    | Except.error e => (some e, acc)
    | Except.ok ticker2 =>
    match execOp beh acc (DbOp.delete "stock_prices" "ticker" ticker2) with
    | (acc2, some e) => (some e, acc2)
    | (acc2, Option.none) =>
      if rows.isEmpty then (Option.none, acc2)
      else
        match execOp beh acc2 (DbOp.insert "stock_prices" rows) with
        | (acc3, r) => (r, acc3)
  else (Option.none, acc)

/-- Lines 59-71: the prediction-building loop.  `pv` is the (constant) value
of `stock_data['prediction']`; `i` is the loop index used to subscript the
bound lists. -/
def buildPredRows (tickerV pv : PyVal) : Nat → List PyVal → Except PyExc (List Row)
  | _, [] => Except.ok []
  | i, pred_data :: rest =>
    match pyGet pv "upper_bound" PyVal.none with
    | Except.error e => Except.error e
    | Except.ok ubCond =>
    match (if ubCond.truthy then
             match pySub pv "upper_bound" with
             | Except.error e => Except.error e
             | Except.ok ubL => pyIndex ubL i
           else Except.ok PyVal.none) with
    | Except.error e => Except.error e
    | Except.ok upper =>
    match pyGet pv "lower_bound" PyVal.none with
    | Except.error e => Except.error e
    | Except.ok lbCond =>
    match (if lbCond.truthy then
             match pySub pv "lower_bound" with
             | Except.error e => Except.error e
             | Except.ok lbL => pyIndex lbL i
           else Except.ok PyVal.none) with
    | Except.error e => Except.error e
    | Except.ok lower =>
    match pySub pred_data "date" with
    | Except.error e => Except.error e
    | Except.ok dateV =>
    match pySub pred_data "price" with
    | Except.error e => Except.error e
    | Except.ok pRaw =>
    match pyFloat pRaw with
    | Except.error e => Except.error e
    | Except.ok pF =>
    match (if upper.truthy then
             match pySub upper "price" with
             | Except.error e => Except.error e
             | Except.ok uRaw => pyFloat uRaw
           else Except.ok PyVal.none) with
    | Except.error e => Except.error e
    | Except.ok uF =>
    match (if lower.truthy then
             match pySub lower "price" with
             | Except.error e => Except.error e
             | Except.ok lRaw => pyFloat lRaw
           else Except.ok PyVal.none) with
    | Except.error e => Except.error e
    | Except.ok lF =>
    match buildPredRows tickerV pv (i + 1) rest with
    | Except.error e => Except.error e
    | Except.ok rows =>
      Except.ok ([("ticker", tickerV), ("date", dateV), ("price", pF),
                  ("upper_bound", uF), ("lower_bound", lF)] :: rows)

/-- Lines 57-78: the predictions block.  The guard (line 58) is
`stock_data.get('prediction') and stock_data['prediction'].get('data')`,
short-circuiting on the first operand; the delete and the insert both sit
inside it. -/
def predsBlock (beh : Nat → Option PyExc) (stock_data : PyVal)
    (acc : List (DbOp × Bool)) : Option PyExc × List (DbOp × Bool) :=
  match pyGet stock_data "prediction" PyVal.none with
  | Except.error e => (some e, acc)
  | Except.ok pvCond =>
  if pvCond.truthy then
    match pySub stock_data "prediction" with
    | Except.error e => (some e, acc)
    | Except.ok pv2 =>
    match pyGet pv2 "data" PyVal.none with
    | Except.error e => (some e, acc)
    | Except.ok dataCond =>
    if dataCond.truthy then
      match pySub stock_data "prediction" with
      | Except.error e => (some e, acc)
      | Except.ok pv3 =>
      match pySub pv3 "data" with
      | Except.error e => (some e, acc)
      | Except.ok dataV =>
      match asList dataV with
      | Except.error e => (some e, acc)
      | Except.ok items =>
      match pySub stock_data "ticker" with
      | Except.error e => (some e, acc)
      | Except.ok tickerV =>
      match buildPredRows tickerV pv3 0 items with
      | Except.error e => (some e, acc)
      | Except.ok rows =>
      match pySub stock_data "ticker" with
      | Except.error e => (some e, acc)
      | Except.ok ticker2 =>
      match execOp beh acc (DbOp.delete "stock_predictions" "ticker" ticker2) with
      | (acc2, some e) => (some e, acc2)
      | (acc2, Option.none) =>
        if rows.isEmpty then (Option.none, acc2)
        else
          match execOp beh acc2 (DbOp.insert "stock_predictions" rows) with
          | (acc3, r) => (r, acc3)
    else (Option.none, acc)
  else (Option.none, acc)

/-- Lines 16-80: the `try` body of `upsert_stock_data`.  Line 33 filters the
`stocks` delete with `.eq('id', stock['id'])`: the argument `stock['id']` is
evaluated before the request is executed, and the `stock` dict built on
lines 18-30 has no `'id'` key. -/
def tryBody (beh : Nat → Option PyExc) (now : String) (stock_data : PyVal) :
    Except PyExc Bool × List (DbOp × Bool) :=
  match mapStockRow now stock_data with
  | Except.error e => (Except.error e, [])
  | Except.ok stock =>
  match pySub (PyVal.dict stock) "id" with
  | Except.error e => (Except.error e, [])
  | Except.ok idV =>
  match execOp beh [] (DbOp.delete "stocks" "id" idV) with
  | (acc1, some e) => (Except.error e, acc1)
  | (acc1, Option.none) =>
  match execOp beh acc1 (DbOp.insert "stocks" [stock]) with
  | (acc2, some e) => (Except.error e, acc2)
  | (acc2, Option.none) =>
  match pricesBlock beh stock_data acc2 with
  | (some e, acc3) => (Except.error e, acc3)
  | (Option.none, acc3) =>
  match predsBlock beh stock_data acc3 with
  | (some e, acc4) => (Except.error e, acc4)
  | (Option.none, acc4) => (Except.ok true, acc4)

/-- Lines 14-84: `upsert_stock_data`.  On an exception from the body, the
handler (lines 82-84) formats a message with `stock_data.get('ticker',
'unknown')` — itself raising on a value with no `get` method — and returns
`False`.  The result pairs the returned value (or escaped exception) with the
operations executed during the call. -/
def upsert_stock_data (beh : Nat → Option PyExc) (now : String)
    (stock_data : PyVal) : Except PyExc Bool × List (DbOp × Bool) :=
  match tryBody beh now stock_data with
  | (Except.ok b, acc) => (Except.ok b, acc)
  | (Except.error _, acc) =>
    match pyGet stock_data "ticker" (PyVal.str "unknown") with
    | Except.ok _ => (Except.ok false, acc)
    | Except.error e2 => (Except.error e2, acc)

/-- The store after one `upsert_stock_data` call: successful operations of
the call replayed on the prior store. -/
def upsertStore (beh : Nat → Option PyExc) (now : String) (stock_data : PyVal)
    (st : Store) : Store :=
  applyOps st (((upsert_stock_data beh now stock_data).2.filter
    (fun p => p.2)).map Prod.fst)

/-- Lines 178-192: build the per-record `stock_data` dict from the iterated
row `stock`, in source order.  `rank` is `idx + 1` directly (1-based position,
no coercion); `historical_data` defaults to an empty list and `prediction` to
a dict of three empty series. -/
def prep_stock_data (idx : Nat) (stock : PyVal) : Except PyExc PyVal :=
  match pySub stock "ticker" with
  | Except.error e => Except.error e
  | Except.ok tickerV =>
  match pySub stock "name" with
  | Except.error e => Except.error e
  | Except.ok nameV =>
  match pyGet stock "avg_sentiment" (PyVal.int 0) with
  | Except.error e => Except.error e
  | Except.ok ssRaw =>
  match pyFloat ssRaw with
  | Except.error e => Except.error e
  | Except.ok ss =>
  match pyGet stock "sentiment_category" (PyVal.str "Neutral") with
  | Except.error e => Except.error e
  | Except.ok scat =>
  match pyGet stock "investment_score" (PyVal.int 0) with
  | Except.error e => Except.error e
  | Except.ok invRaw =>
  match pyFloat invRaw with
  | Except.error e => Except.error e
  | Except.ok inv =>
  match pyGet stock "news_count" (PyVal.int 0) with
  | Except.error e => Except.error e
  | Except.ok ncRaw =>
  match pyInt ncRaw with
  | Except.error e => Except.error e
  | Except.ok nc =>
  match pyGet stock "historical_data" (PyVal.list []) with
  | Except.error e => Except.error e
  | Except.ok hist =>
  match pyGet stock "prediction"
      (PyVal.dict [("data", PyVal.list []), ("upper_bound", PyVal.list []),
                   ("lower_bound", PyVal.list [])]) with
  | Except.error e => Except.error e
  | Except.ok pred =>
  Except.ok (PyVal.dict [("ticker", tickerV), ("name", nameV),
    ("sentiment_score", ss), ("sentiment_category", scat),
    ("investment_score", inv), ("news_count", nc),
    ("rank", PyVal.int (Int.ofNat (idx + 1))),
    ("historical_data", hist), ("prediction", pred)])

/-- Lines 199-201: the driver's per-record `except` clause.  It formats a
message with `stock.get('ticker', 'unknown')` (raising on a row with no `get`
method) and counts the record as an error, i.e. yields `False`. -/
def handleRecordExc (stock : PyVal) : Except PyExc Bool :=
  match pyGet stock "ticker" (PyVal.str "unknown") with
  | Except.ok _ => Except.ok false
  | Except.error e => Except.error e

/-- Lines 176-201: process one iterated row.  `u` is the `upsert_stock_data`
bound method the driver calls (its executed operations do not influence the
driver's control flow, only its returned value does).  The result is `True`
for a success tally, `False` for an error tally, or an exception the per-
record handler itself raised. -/
def write_one (u : PyVal → Except PyExc Bool × List (DbOp × Bool))
    (idx : Nat) (stock : PyVal) : Except PyExc Bool :=
  match prep_stock_data idx stock with
  | Except.error _ => handleRecordExc stock
  | Except.ok sd =>
    match (u sd).1 with
    | Except.error _ => handleRecordExc stock
    | Except.ok b => Except.ok b

/-- Lines 175-201: the driver's loop, with the running 0-based position and
the two tallies. -/
def write_analysis_loop (u : PyVal → Except PyExc Bool × List (DbOp × Bool)) :
    List PyVal → Nat → Nat → Nat → Except PyExc (Nat × Nat)
  | [], _, sc, ec => Except.ok (sc, ec)
  | stock :: rest, idx, sc, ec =>
    match write_one u idx stock with
    | Except.error e => Except.error e
    | Except.ok true => write_analysis_loop u rest (idx + 1) (sc + 1) ec
    | Except.ok false => write_analysis_loop u rest (idx + 1) sc (ec + 1)

/-- Lines 170-207: `write_analysis_to_database`, returning the pair
`(success_count, error_count)`.  `u` abstracts the `self.upsert_stock_data`
method the loop invokes on each prepared record. -/
def write_analysis_to_database (u : PyVal → Except PyExc Bool × List (DbOp × Bool))
    (ranked_stocks : List PyVal) : Except PyExc (Nat × Nat) :=
  write_analysis_loop u ranked_stocks 0 0 0

/-- A client behaviour under which every executed operation succeeds. -/
def behOk : Nat → Option PyExc := fun _ => Option.none

/-- The empty store: all three tables empty. -/
def emptyStore : Store := ⟨[], [], []⟩

/-- A complete record: ticker, name, all scores, two historical price points
and two prediction points with bounds. -/
def rec1 : PyVal := PyVal.dict [
  ("ticker", PyVal.str "AAPL"), ("name", PyVal.str "Apple Inc."),
  ("sentiment_score", PyVal.float (1/2)),
  ("sentiment_category", PyVal.str "Positive"),
  ("investment_score", PyVal.float 7), ("news_count", PyVal.int 3),
  ("rank", PyVal.int 1),
  ("historical_data", PyVal.list [
     PyVal.dict [("date", PyVal.str "2024-01-01"), ("price", PyVal.float 100)],
     PyVal.dict [("date", PyVal.str "2024-01-02"), ("price", PyVal.float 102)]]),
  ("prediction", PyVal.dict [
     ("data", PyVal.list [
        PyVal.dict [("date", PyVal.str "2024-01-03"), ("price", PyVal.float 104)],
        PyVal.dict [("date", PyVal.str "2024-01-04"), ("price", PyVal.float 106)]]),
     ("upper_bound", PyVal.list [
        PyVal.dict [("price", PyVal.float 110)],
        PyVal.dict [("price", PyVal.float 112)]]),
     ("lower_bound", PyVal.list [
        PyVal.dict [("price", PyVal.float 98)],
        PyVal.dict [("price", PyVal.float 99)]])])]

/-- A complete record for a second ticker. -/
def rec2 : PyVal := PyVal.dict [
  ("ticker", PyVal.str "GOOG"), ("name", PyVal.str "Alphabet"),
  ("sentiment_score", PyVal.float 1), ("sentiment_category", PyVal.str "Positive"),
  ("investment_score", PyVal.float 5), ("news_count", PyVal.int 2),
  ("rank", PyVal.int 2),
  ("historical_data", PyVal.list [
     PyVal.dict [("date", PyVal.str "2024-02-01"), ("price", PyVal.float 150)]])]

/-- A record whose optional series are present but empty. -/
def rec4 : PyVal := PyVal.dict [
  ("ticker", PyVal.str "TSLA"), ("name", PyVal.str "Tesla"),
  ("sentiment_score", PyVal.float 0), ("sentiment_category", PyVal.str "Neutral"),
  ("investment_score", PyVal.float 1), ("news_count", PyVal.int 0),
  ("rank", PyVal.int 3),
  ("historical_data", PyVal.list []),
  ("prediction", PyVal.dict [("data", PyVal.list []),
     ("upper_bound", PyVal.list []), ("lower_bound", PyVal.list [])])]

/-- A record carrying only the mandatory `ticker` and `name` fields. -/
def rec5 : PyVal := PyVal.dict [
  ("ticker", PyVal.str "MSFT"), ("name", PyVal.str "Microsoft")]

/-- The row `mapStockRow` produces for `rec5`: defaults everywhere. -/
def rec5DefaultRow : Row :=
  [("ticker", PyVal.str "MSFT"), ("name", PyVal.str "Microsoft"),
   ("sentiment", PyVal.dict [("score", PyVal.float ((0 : Int) : ℚ)),
      ("category", PyVal.str "Neutral"),
      ("investment_score", PyVal.float ((0 : Int) : ℚ))]),
   ("news_count", PyVal.int 0), ("rank", PyVal.int 0),
   ("investment_score", PyVal.float ((0 : Int) : ℚ)),
   ("last_updated", PyVal.str "T5")]

/-- A complete record for the idempotence scenario. -/
def rec6 : PyVal := PyVal.dict [
  ("ticker", PyVal.str "NVDA"), ("name", PyVal.str "NVIDIA"),
  ("sentiment_score", PyVal.float 1), ("sentiment_category", PyVal.str "Positive"),
  ("investment_score", PyVal.float 9), ("news_count", PyVal.int 5),
  ("rank", PyVal.int 1),
  ("historical_data", PyVal.list [
     PyVal.dict [("date", PyVal.str "2024-03-01"), ("price", PyVal.float 800)]])]

/-- A stale entity row for NVDA from an earlier run. -/
def oldStockRow6 : Row :=
  [("ticker", PyVal.str "NVDA"), ("name", PyVal.str "Stale Name"),
   ("news_count", PyVal.int 1), ("rank", PyVal.int 9)]

/-- A stale price row for NVDA from an earlier run. -/
def oldPriceRow6 : Row :=
  [("ticker", PyVal.str "NVDA"), ("date", PyVal.str "2023-12-01"),
   ("price", PyVal.float 500)]

/-- A store already holding stale NVDA rows. -/
def st6 : Store := ⟨[oldStockRow6], [oldPriceRow6], []⟩

/-- A complete record for the atomicity scenario. -/
def rec8 : PyVal := PyVal.dict [
  ("ticker", PyVal.str "AMD"), ("name", PyVal.str "AMD Inc."),
  ("sentiment_score", PyVal.float 2), ("sentiment_category", PyVal.str "Positive"),
  ("investment_score", PyVal.float 4), ("news_count", PyVal.int 7),
  ("rank", PyVal.int 4),
  ("historical_data", PyVal.list [
     PyVal.dict [("date", PyVal.str "2024-04-01"), ("price", PyVal.float 170)]]),
  ("prediction", PyVal.dict [
     ("data", PyVal.list [
        PyVal.dict [("date", PyVal.str "2024-04-02"), ("price", PyVal.float 171)]])])]

/-- A per-record persistence stand-in that reports success, used to realise
the batch scenario in which persistence succeeds. -/
def uTrue : PyVal → Except PyExc Bool × List (DbOp × Bool) :=
  fun _ => (Except.ok true, [])

/-- A well-formed iterated row: mandatory fields present. -/
def goodRec : List (String × PyVal) :=
  [("ticker", PyVal.str "AAA"), ("name", PyVal.str "Alpha")]

theorem write_one_dict_total (u : PyVal → Except PyExc Bool × List (DbOp × Bool))
    (idx : Nat) (fs : List (String × PyVal)) :
    ∃ b : Bool, write_one u idx (PyVal.dict fs) = Except.ok b := by
  unfold write_one
  cases hp : prep_stock_data idx (PyVal.dict fs) with
  | error e => exact ⟨false, by simp [handleRecordExc, pyGet]⟩
  | ok sd =>
    cases hu : (u sd).1 with
    | error e => exact ⟨false, by simp [hu, handleRecordExc, pyGet]⟩
    | ok b => exact ⟨b, by simp [hu]⟩

theorem loop_counts (u : PyVal → Except PyExc Bool × List (DbOp × Bool))
    (rs : List (List (String × PyVal))) :
    ∀ idx sc ec, ∃ sc2 ec2,
      write_analysis_loop u (rs.map PyVal.dict) idx sc ec = Except.ok (sc2, ec2) ∧
      sc2 + ec2 = sc + ec + rs.length := by
  induction rs with
  | nil => exact fun idx sc ec => ⟨sc, ec, rfl, by simp⟩
  | cons r rest ih =>
    intro idx sc ec
    obtain ⟨b, hb⟩ := write_one_dict_total u idx r
    cases b with
    | true =>
      obtain ⟨sc2, ec2, h1, h2⟩ := ih (idx + 1) (sc + 1) ec
      refine ⟨sc2, ec2, ?_, by simp at h2 ⊢; omega⟩
      simp [write_analysis_loop, hb, h1]
    | false =>
      obtain ⟨sc2, ec2, h1, h2⟩ := ih (idx + 1) sc (ec + 1)
      refine ⟨sc2, ec2, ?_, by simp at h2 ⊢; omega⟩
      simp [write_analysis_loop, hb, h1]

/-- C1: the claim says a call on a record with all fields present returns
`True` and produces one entity row, N price rows and M prediction rows.  On
the code, the `stocks` delete at line 33 evaluates `stock['id']` on a dict
built without an `'id'` key, so every call raises `KeyError` before any
request executes: on the complete record `rec1` (2 price points, 2
prediction points) the call returns `False`, executes no operation, and an
initially empty store stays empty — zero rows in every table. -/
theorem C1_complete_record_no_rows_written :
    upsert_stock_data behOk "2024-01-05T00:00:00" rec1 = (Except.ok false, []) ∧
    upsertStore behOk "2024-01-05T00:00:00" rec1 emptyStore = emptyStore :=
  ⟨rfl, rfl⟩

/-- C2: the claim says the delete on the `stocks` table is filtered by the
record's ticker.  In the code the filter is `.eq('id', stock['id'])`: the
filter column is `'id'`, not `'ticker'`, and evaluating `stock['id']` raises
`KeyError 'id'` (the built row has no such key), so the delete never even
executes — shown here on the complete record `rec2`, where the try body ends
in `KeyError 'id'` with no operation executed and the call returns `False`. -/
theorem C2_stocks_delete_not_by_ticker :
    tryBody behOk "T2" rec2 = (Except.error (PyExc.keyError "id"), []) ∧
    upsert_stock_data behOk "T2" rec2 = (Except.ok false, []) :=
  ⟨rfl, rfl⟩

/-- C3 counterexample: the claim says `upsert_stock_data` returns a boolean
for every input value, including non-dict inputs.  On the non-dict input `5`
the try body raises `TypeError` at `stock_data['ticker']` and the handler's
own `stock_data.get('ticker', 'unknown')` then raises `AttributeError`,
which escapes the method. -/
theorem C3_nondict_input_raises :
    upsert_stock_data behOk "T3" (PyVal.int 5) =
      (Except.error PyExc.attributeError, []) :=
  rfl

/-- C3 (amended): for every dict input and every behaviour of the database
client, `upsert_stock_data` never raises past its boundary: it returns the
boolean `True` or `False`, converting any internal exception into `False`. -/
theorem C3_dict_input_never_raises (beh : Nat → Option PyExc) (now : String)
    (fs : List (String × PyVal)) :
    ∃ b : Bool, (upsert_stock_data beh now (PyVal.dict fs)).1 = Except.ok b := by
  rcases htb : tryBody beh now (PyVal.dict fs) with ⟨r, acc⟩
  cases r with
  | ok b => exact ⟨b, by simp [upsert_stock_data, htb]⟩
  | error e => exact ⟨false, by simp [upsert_stock_data, htb, pyGet]⟩

/-- C4: the claim says each of the three tables gets a delete filtered by the
record's key, with only the insert skipped on an empty row set.  On `rec4`
(mandatory fields present, both series empty) the call executes no delete on
any table: the `stocks` delete aborts on `KeyError 'id'`; and in the code the
`stock_prices` / `stock_predictions` deletes sit inside the same truthiness
guard as their inserts, so an empty series skips the delete too. -/
theorem C4_no_deletes_for_empty_series :
    upsert_stock_data behOk "T4" rec4 = (Except.ok false, []) :=
  rfl

/-- C5: the claim says a record missing all optional fields is mapped with
defaults (zero scores, "Neutral" category) and persistence still returns
`True`.  The mapping does apply the defaults, but the call still returns
`False` (the `KeyError 'id'` at the `stocks` delete) and writes nothing. -/
theorem C5_defaults_mapped_but_returns_false :
    mapStockRow "T5" rec5 = Except.ok rec5DefaultRow ∧
    upsert_stock_data behOk "T5" rec5 = (Except.ok false, []) :=
  ⟨rfl, rfl⟩

/-- C6: the claim says that absent mid-operation failure, calling
`upsert_stock_data` twice for the same ticker leaves exactly the new row set
in each table.  With a service that never fails, two successive calls on the
complete record `rec6` leave a store holding stale NVDA rows exactly as it
was: the stale entity and price rows are still present and no new row was
written, and both calls return `False`. -/
theorem C6_second_call_leaves_stale_rows :
    (upsert_stock_data behOk "T6" rec6).1 = Except.ok false ∧
    upsertStore behOk "T6" rec6 (upsertStore behOk "T6" rec6 st6) = st6 ∧
    st6.stocks = [oldStockRow6] ∧ st6.stock_prices = [oldPriceRow6] :=
  ⟨rfl, rfl, rfl, rfl⟩

/-- C7: a batch of 3 records in which persistence succeeds for two and the
processing of the middle one raises is fully iterated — the failure does not
stop the loop — and the driver reports `success_count = 2`,
`error_count = 1`. -/
theorem C7_batch_counts (u : PyVal → Except PyExc Bool × List (DbOp × Bool))
    (r1 r2 r3 : List (String × PyVal))
    (h1 : write_one u 0 (PyVal.dict r1) = Except.ok true)
    (h2 : ∃ e, prep_stock_data 1 (PyVal.dict r2) = Except.error e)
    (h3 : write_one u 2 (PyVal.dict r3) = Except.ok true) :
    write_analysis_to_database u [PyVal.dict r1, PyVal.dict r2, PyVal.dict r3] =
      Except.ok (2, 1) := by
  obtain ⟨e, he⟩ := h2
  have h2f : write_one u 1 (PyVal.dict r2) = Except.ok false := by
    simp [write_one, he, handleRecordExc, pyGet]
  simp [write_analysis_to_database, write_analysis_loop, h1, h2f, h3]

/-- C7 witness: a concrete 3-record batch — two well-formed records processed
by an always-succeeding persistence call around a record whose preparation
raises `KeyError 'ticker'` — for which the driver reports `(2, 1)`. -/
theorem C7_batch_counts_witness :
    write_one uTrue 0 (PyVal.dict goodRec) = Except.ok true ∧
    prep_stock_data 1 (PyVal.dict []) = Except.error (PyExc.keyError "ticker") ∧
    write_one uTrue 2 (PyVal.dict goodRec) = Except.ok true ∧
    write_analysis_to_database uTrue
      [PyVal.dict goodRec, PyVal.dict [], PyVal.dict goodRec] = Except.ok (2, 1) :=
  ⟨rfl, rfl, rfl,
   C7_batch_counts uTrue goodRec [] goodRec rfl ⟨PyExc.keyError "ticker", rfl⟩ rfl⟩

/-- C8: the claim says some mid-sequence failure leaves a ticker's prior rows
deleted with no replacement inserted.  No such state is reachable: for every
client behaviour — any pattern of operation failures — and every prior store,
the call on the complete record `rec8` executes no operation at all (the
`KeyError 'id'` at line 33 precedes every `.execute()`), so the store is
never modified, deleted rows included. -/
theorem C8_store_never_modified (beh : Nat → Option PyExc) (st : Store) :
    upsertStore beh "T8" rec8 st = st ∧
    (upsert_stock_data beh "T8" rec8).2 = [] :=
  ⟨rfl, rfl⟩

/-- C9: for every per-record persistence behaviour and every collection of
iterated rows, the driver returns a pair `(success_count, error_count)` of
naturals whose sum is the number of records: each record is tallied exactly
once, as a success or as an error. -/
theorem C9_counts_partition_records
    (u : PyVal → Except PyExc Bool × List (DbOp × Bool))
    (rs : List (List (String × PyVal))) :
    ∃ sc ec, write_analysis_to_database u (rs.map PyVal.dict) = Except.ok (sc, ec) ∧
      sc + ec = rs.length := by
  obtain ⟨sc, ec, h1, h2⟩ := loop_counts u rs 0 0 0
  exact ⟨sc, ec, h1, by omega⟩

/-- C10: for every dict input lacking the `ticker` key or lacking the `name`
key — the two fields read by subscript, with no default — `upsert_stock_data`
returns `False` and executes no delete or insert against any table. -/
theorem C10_missing_mandatory_no_ops (beh : Nat → Option PyExc) (now : String)
    (fs : List (String × PyVal))
    (h : lookupField fs "ticker" = Option.none ∨ lookupField fs "name" = Option.none) :
    upsert_stock_data beh now (PyVal.dict fs) = (Except.ok false, []) := by
  have hmap : ∃ e, mapStockRow now (PyVal.dict fs) = Except.error e := by
    rcases h with h | h
    · exact ⟨PyExc.keyError "ticker", by simp [mapStockRow, pySub, h]⟩
    · cases ht : lookupField fs "ticker" with
      | none => exact ⟨PyExc.keyError "ticker", by simp [mapStockRow, pySub, ht]⟩
      | some v => exact ⟨PyExc.keyError "name", by simp [mapStockRow, pySub, ht, h]⟩
  obtain ⟨e, he⟩ := hmap
  simp [upsert_stock_data, tryBody, he, pyGet]

/-- C10 witness: the empty dict lacks `ticker`, and the call on it returns
`False` having executed nothing. -/
theorem C10_missing_mandatory_no_ops_witness :
    lookupField [] "ticker" = Option.none ∧
    upsert_stock_data behOk "T10" (PyVal.dict []) = (Except.ok false, []) :=
  ⟨rfl, C10_missing_mandatory_no_ops behOk "T10" [] (Or.inl rfl)⟩
